import Mathlib

/-!
Verification development for the Nordic BLE UART client module
(ble_app_uart_c/ble_uart_c.c).

The module is shallowly embedded: the static module state (the eight-slot
transmit ring buffer with its two cursors) becomes an explicit state record,
the two SoftDevice submit primitives (sd_ble_gattc_read / sd_ble_gattc_write)
become an oracle parameter carrying the immediate status the stack would
return, and every interaction with the stack or with the application callback
is recorded in an observation log so that temporal properties can be stated
over traces.  Machine integers (uint16_t / uint32_t) are modelled as Nat;
the only place the C code relies on wrap-around is the explicit masking of
the ring-buffer cursors with TX_BUFFER_MASK, which is kept literally.
-/

namespace BleUartC

/-! Constants taken from the Nordic SDK headers (nrf_error.h, ble_gatt.h,
ble_types.h, ble_hci.h, app_util.h).  Those headers are external to this
repository; the values below are the SDK values the C file compiles against. -/

def NRF_SUCCESS : Nat := 0

def NRF_ERROR_INVALID_STATE : Nat := 8

def NRF_ERROR_NULL : Nat := 14

def BLE_CONN_HANDLE_INVALID : Nat := 0xFFFF

def BLE_GATT_HANDLE_INVALID : Nat := 0x0000

def BLE_GATT_HVX_NOTIFICATION : Nat := 0x01

def BLE_GATT_OP_WRITE_REQ : Nat := 0x01

/-- Macro LSB_16 from app_util.h: low byte of a 16-bit value. -/
def LSB_16 (a : Nat) : Nat := a &&& 0x00FF

/-- Macro MSB_16 from app_util.h: high byte of a 16-bit value. -/
def MSB_16 (a : Nat) : Nat := (a >>> 8) &&& 0x00FF

/-- TX Buffer mask (ble_uart_c.c line 28). -/
abbrev TX_BUFFER_MASK : Nat := 0x07

/-- Size of the send buffer, one higher than the mask (line 29). -/
abbrev TX_BUFFER_SIZE : Nat := TX_BUFFER_MASK + 1

/-- Length of the write message buffer gattc_value (line 31). -/
abbrev WRITE_MESSAGE_LENGTH : Nat := 20

/-- Enum tx_request_t (lines 33..37). -/
inductive TxRequestType where
  | READ_REQ
  | WRITE_REQ
deriving DecidableEq

export TxRequestType (READ_REQ WRITE_REQ)

/-- Fields of ble_gattc_write_params_t that the module assigns.  The p_value
field always points at the gattc_value slot of the same message (lines 258,
312), so it is not represented separately; the payload of a write is the
prefix of gattc_value of length len. -/
structure GattcWriteParams where
  write_op : Nat
  handle : Nat
  offset : Nat
  len : Nat
deriving DecidableEq

/-- Struct write_params_t (lines 41..45): a fixed 20-byte payload slot plus
the GATTC parameters. -/
structure WriteParams where
  gattc_value : Fin WRITE_MESSAGE_LENGTH → Nat
  gattc_params : GattcWriteParams

/-- Struct tx_message_t (lines 49..58).  The C type holds read_handle and
write_req in a union selected by the type discriminant; the code never reads
the member that was not last written for the stored discriminant, so a record
carrying both members is observationally faithful. -/
structure TxMessage where
  conn_handle : Nat
  type : TxRequestType
  read_handle : Nat
  write_req : WriteParams

/-- The fields of ble_uart_c_t that this file reads or writes. -/
structure UartC where
  conn_handle : Nat
  RX_cccd_handle : Nat
  RX_handle : Nat
  TX_handle : Nat
deriving DecidableEq

/-- The static module state (lines 62..64): the transmit ring buffer and its
two cursors.  The field inFlight is ghost instrumentation, not present in the
C code: it counts submissions the stack has accepted for which no write
response has yet been delivered, and is used to state the flow-control
claims. -/
structure QState where
  tx_buffer : Fin TX_BUFFER_SIZE → TxMessage
  tx_insert_index : Nat
  tx_index : Nat
  inFlight : Nat

/-- Array read m_tx_buffer[i].  In every reachable state both cursors have
been masked with TX_BUFFER_MASK and are below TX_BUFFER_SIZE; the reduction
mod TX_BUFFER_SIZE totalizes the access without changing it there. -/
def bufGet (b : Fin TX_BUFFER_SIZE → TxMessage) (i : Nat) : TxMessage :=
  b ⟨i % TX_BUFFER_SIZE, Nat.mod_lt _ (by decide)⟩

/-- Array write m_tx_buffer[i] = m, totalized like bufGet. -/
def bufSet (b : Fin TX_BUFFER_SIZE → TxMessage) (i : Nat) (m : TxMessage) :
    Fin TX_BUFFER_SIZE → TxMessage :=
  Function.update b ⟨i % TX_BUFFER_SIZE, Nat.mod_lt _ (by decide)⟩ m

/-- Enum ble_uart_c_evt_type_t from the header of this module. -/
inductive UartCEvtType where
  | BLE_UART_C_EVT_DISCOVERY_COMPLETE
  | BLE_UART_C_EVT_RX_DATA_NOTIFICATION
deriving DecidableEq

/-- The application-facing event record ble_uart_c_evt_t as filled by on_hvx:
event type plus the copied notification payload and its length. -/
structure UartCEvt where
  evt_type : UartCEvtType
  rx_data : List Nat
  len : Nat
deriving DecidableEq

/-- One observable interaction of the module with its environment.  submitRead
and submitWrite record a call of sd_ble_gattc_read / sd_ble_gattc_write
together with the immediate status the stack returned; rsp records the arrival
of a BLE_GATTC_EVT_WRITE_RSP event; appEvt records an invocation of the
application callback; enq is a ghost marker recording that an enqueue wrote a
message into the ring buffer. -/
inductive Obs where
  | enq : Obs
  | submitRead (conn_handle : Nat) (handle : Nat) (stackErr : Nat) : Obs
  | submitWrite (conn_handle : Nat) (params : WriteParams) (stackErr : Nat) : Obs
  | rsp : Obs
  | appEvt (e : UartCEvt) : Obs

/-- The stack call made by tx_buffer_process for the message at the dispatch
cursor (lines 75..85): a read request goes to sd_ble_gattc_read with the
stored read handle, anything else goes to sd_ble_gattc_write with the stored
write parameters. -/
def submitObs (m : TxMessage) (stackErr : Nat) : Obs :=
  if m.type = READ_REQ then Obs.submitRead m.conn_handle m.read_handle stackErr
  else Obs.submitWrite m.conn_handle m.write_req stackErr

/-- Function tx_buffer_process (lines 69..98).  The parameter stackErr is the
immediate status the SoftDevice submit primitive returns for this call, an
oracle for the external stack.  If the queue is nonempty the entry at
m_tx_index is passed to the stack; on NRF_SUCCESS the dispatch cursor is
advanced and masked, otherwise nothing changes and the same entry will be
retried on the next trigger. -/
def tx_buffer_process (q : QState) (stackErr : Nat) : QState × List Obs :=
  if q.tx_index ≠ q.tx_insert_index then
    let ob := submitObs (bufGet q.tx_buffer q.tx_index) stackErr
    if stackErr = NRF_SUCCESS then
      ({ q with tx_index := (q.tx_index + 1) &&& TX_BUFFER_MASK,
                inFlight := q.inFlight + 1 }, [ob])
    else
      (q, [ob])
  else
    (q, [])

/-- The submission a call of tx_buffer_process makes: none when the queue is
empty, otherwise the stack call for the entry at the dispatch cursor. -/
def submitAttempt (q : QState) (stackErr : Nat) : List Obs :=
  if q.tx_index ≠ q.tx_insert_index then
    [submitObs (bufGet q.tx_buffer q.tx_index) stackErr]
  else
    []

/-- Function cccd_configure (lines 245..268).  Takes the slot at
m_tx_insert_index, advances and masks the insert cursor, fills the slot with a
two-byte CCCD write (value bytes LSB and MSB of the notification flag),
triggers tx_buffer_process, and returns NRF_SUCCESS unconditionally.  No
capacity check and no connection-handle check are performed. -/
def cccd_configure (q : QState) (conn_handle : Nat) (handle_cccd : Nat)
    (enable : Bool) (stackErr : Nat) : Nat × QState × List Obs :=
  let cccd_val : Nat := if enable then BLE_GATT_HVX_NOTIFICATION else 0
  let old := bufGet q.tx_buffer q.tx_insert_index
  let p_msg : TxMessage :=
    { conn_handle := conn_handle
      type := WRITE_REQ
      read_handle := old.read_handle
      write_req :=
        { gattc_value :=
            Function.update
              (Function.update old.write_req.gattc_value 0 (LSB_16 cccd_val))
              1 (MSB_16 cccd_val)
          gattc_params :=
            { handle := handle_cccd
              len := 2
              offset := 0
              write_op := BLE_GATT_OP_WRITE_REQ } } }
  let q1 : QState :=
    { q with tx_buffer := bufSet q.tx_buffer q.tx_insert_index p_msg
             tx_insert_index := (q.tx_insert_index + 1) &&& TX_BUFFER_MASK }
  let r := tx_buffer_process q1 stackErr
  (NRF_SUCCESS, r.1, Obs.enq :: r.2)

/-- Model of memcpy(p_msg.req.write_req.gattc_value, p_str, p_str_len)
(line 315): destination byte i becomes source byte i for i below p_str_len,
the remaining slot bytes keep their previous value.  The C call writes all
p_str_len bytes unconditionally, including past the end of the 20-byte slot
when p_str_len exceeds it; only the in-slot effect is representable here, and
the out-of-bounds hazard is captured by memcpyDstIndices below. -/
def memcpy20 (dst : Fin WRITE_MESSAGE_LENGTH → Nat) (src : List Nat) (n : Nat) :
    Fin WRITE_MESSAGE_LENGTH → Nat :=
  fun i => if i.val < n then src.getD i.val 0 else dst i

/-- The destination byte offsets written by memcpy(dst, src, n): exactly
0, 1, ..., n-1, regardless of the size of the destination object. -/
def memcpyDstIndices (n : Nat) : List Nat := List.range n

/-- Function ble_uart_c_write_string (lines 296..323).  If the connection
handle of the passed instance is the invalid sentinel it returns
NRF_ERROR_INVALID_STATE without touching the queue.  Otherwise it fills the
slot at m_tx_insert_index with a write request to the stored TX handle,
copies p_str_len payload bytes with memcpy, stores p_str_len verbatim as the
write length (no validation against the 20-byte slot), advances and masks the
insert cursor, triggers tx_buffer_process, and returns NRF_SUCCESS. -/
def ble_uart_c_write_string (p_ble_uart_c : UartC) (p_str : List Nat)
    (p_str_len : Nat) (q : QState) (stackErr : Nat) : Nat × QState × List Obs :=
  if p_ble_uart_c.conn_handle = BLE_CONN_HANDLE_INVALID then
    (NRF_ERROR_INVALID_STATE, q, [])
  else
    let old := bufGet q.tx_buffer q.tx_insert_index
    let p_msg : TxMessage :=
      { conn_handle := p_ble_uart_c.conn_handle
        type := WRITE_REQ
        read_handle := old.read_handle
        write_req :=
          { gattc_value := memcpy20 old.write_req.gattc_value p_str p_str_len
            gattc_params :=
              { handle := p_ble_uart_c.TX_handle
                len := p_str_len
                offset := 0
                write_op := BLE_GATT_OP_WRITE_REQ } } }
    let q1 : QState :=
      { q with tx_buffer := bufSet q.tx_buffer q.tx_insert_index p_msg
               tx_insert_index := (q.tx_insert_index + 1) &&& TX_BUFFER_MASK }
    let r := tx_buffer_process q1 stackErr
    (NRF_SUCCESS, r.1, Obs.enq :: r.2)

/-- Pointer-level view of ble_uart_c_write_string.  The C function
dereferences p_ble_uart_c without a NULL check; a NULL argument is undefined
behaviour, modelled as the absence of a defined result. -/
def writeStringPtr (p_ble_uart_c : Option UartC) (p_str : List Nat)
    (p_str_len : Nat) (q : QState) (stackErr : Nat) :
    Option (Nat × QState × List Obs) :=
  p_ble_uart_c.map (fun u => ble_uart_c_write_string u p_str p_str_len q stackErr)

/-- Function ble_uart_c_rx_notif_enable (lines 324..332): NULL check on the
instance pointer, then cccd_configure with the stored connection handle and
the stored RX CCCD handle and enable = true.  There is no connection-state
check. -/
def ble_uart_c_rx_notif_enable (p_ble_uart_c : Option UartC) (q : QState)
    (stackErr : Nat) : Nat × QState × List Obs :=
  match p_ble_uart_c with
  | none => (NRF_ERROR_NULL, q, [])
  | some u => cccd_configure q u.conn_handle u.RX_cccd_handle true stackErr

/-- Function on_hvx (lines 122..134): if the notifying attribute handle equals
the stored RX handle, build an RX-data event carrying a copy of the first
hvx_len notification bytes and invoke the application callback; otherwise do
nothing.  The module state is not touched; the return value is the list of
callback invocations. -/
def on_hvx (p_ble_uart_c : UartC) (hvx_handle : Nat) (hvx_data : List Nat)
    (hvx_len : Nat) : List Obs :=
  if hvx_handle = p_ble_uart_c.RX_handle then
    [Obs.appEvt
      { evt_type := UartCEvtType.BLE_UART_C_EVT_RX_DATA_NOTIFICATION
        rx_data := hvx_data.take hvx_len
        len := hvx_len }]
  else
    []

/-- Function on_write_rsp (lines 106..110): both arguments are ignored and
tx_buffer_process runs. -/
def on_write_rsp (q : QState) (stackErr : Nat) : QState × List Obs :=
  tx_buffer_process q stackErr

/-- The BLE events dispatched by ble_uart_c_on_ble_evt (lines 223..239),
reduced to the data the handlers read. -/
inductive BleEvt where
  | GAP_CONNECTED (conn_handle : Nat)
  | GATTC_HVX (handle : Nat) (data : List Nat) (len : Nat)
  | GATTC_WRITE_RSP
  | OTHER

/-- Function ble_uart_c_on_ble_evt (lines 216..240).  NULL in either argument
is a silent no-op.  A connected event records the connection handle; an HVX
event runs on_hvx; a write-response event runs tx_buffer_process via
on_write_rsp (the oracle stackErr feeds that call); anything else is ignored.
The rsp marker in the log records the arrival of the write-response event and
drives the ghost inFlight counter down by one. -/
def ble_uart_c_on_ble_evt (p_ble_uart_c : Option UartC) (p_ble_evt : Option BleEvt)
    (q : QState) (stackErr : Nat) : Option UartC × QState × List Obs :=
  match p_ble_uart_c, p_ble_evt with
  | none, _ => (p_ble_uart_c, q, [])
  | _, none => (p_ble_uart_c, q, [])
  | some u, some ev =>
    match ev with
    | BleEvt.GAP_CONNECTED h => (some { u with conn_handle := h }, q, [])
    | BleEvt.GATTC_HVX handle data len => (some u, q, on_hvx u handle data len)
    | BleEvt.GATTC_WRITE_RSP =>
        let r := on_write_rsp { q with inFlight := q.inFlight - 1 } stackErr
        (some u, r.1, Obs.rsp :: r.2)
    | BleEvt.OTHER => (some u, q, [])

/-- Function ble_uart_c_init (lines 184..213), restricted to the behaviour the
claims need: the NULL checks on both arguments, propagation of a failing
sd_ble_uuid_vs_add status, initialization of the connection handle and RX CCCD
handle to their invalid sentinels, and the status of
ble_db_discovery_evt_register as final result.  The UUID bookkeeping and the
stored callback are outside the modelled state. -/
def ble_uart_c_init (p_ble_uart_c : Option UartC) (p_ble_uart_c_init : Option Unit)
    (vs_add_err : Nat) (register_err : Nat) : Nat × Option UartC :=
  match p_ble_uart_c, p_ble_uart_c_init with
  | none, _ => (NRF_ERROR_NULL, none)
  | some u, none => (NRF_ERROR_NULL, some u)
  | some u, some _ =>
    if vs_add_err ≠ NRF_SUCCESS then (vs_add_err, some u)
    else (register_err,
          some { u with conn_handle := BLE_CONN_HANDLE_INVALID,
                        RX_cccd_handle := BLE_GATT_HANDLE_INVALID })

/-- Full module state for trace runs: the static queue state together with
the application-owned instance struct that the entry points receive. -/
structure MState where
  uart : UartC
  q : QState

/-- One external trigger of the module, together with the oracle status the
stack would return for the (at most one) submit primitive call the trigger
can cause: an application call of ble_uart_c_write_string, an application
call of ble_uart_c_rx_notif_enable, or delivery of a BLE event to
ble_uart_c_on_ble_evt. -/
inductive Ev where
  | evWriteString (p_str : List Nat) (p_str_len : Nat) (stackErr : Nat)
  | evRxNotifEnable (stackErr : Nat)
  | evBle (e : BleEvt) (stackErr : Nat)

/-- The oracle status carried by a trace event. -/
def evErr : Ev → Nat
  | Ev.evWriteString _ _ e => e
  | Ev.evRxNotifEnable e => e
  | Ev.evBle _ e => e

/-- One step of the module under an external trigger: the next state and the
observations the step emitted. -/
def step (s : MState) (e : Ev) : MState × List Obs :=
  match e with
  | Ev.evWriteString p_str p_str_len stackErr =>
      let r := ble_uart_c_write_string s.uart p_str p_str_len s.q stackErr
      ({ s with q := r.2.1 }, r.2.2)
  | Ev.evRxNotifEnable stackErr =>
      let r := ble_uart_c_rx_notif_enable (some s.uart) s.q stackErr
      ({ s with q := r.2.1 }, r.2.2)
  | Ev.evBle ev stackErr =>
      let r := ble_uart_c_on_ble_evt (some s.uart) (some ev) s.q stackErr
      ({ uart := r.1.getD s.uart, q := r.2.1 }, r.2.2)

/-- Run of the module over a list of external triggers. -/
def run (s : MState) : List Ev → MState
  | [] => s
  | e :: es => run (step s e).1 es

/-- Concatenated observation log of a run. -/
def runLog (s : MState) : List Ev → List Obs
  | [] => []
  | e :: es => (step s e).2 ++ runLog (step s e).1 es

/-- Whether an observation is a call of a stack submit primitive. -/
def obsIsAttempt : Obs → Bool
  | Obs.submitRead _ _ _ => true
  | Obs.submitWrite _ _ _ => true
  | _ => false

/-- Whether an observation is a stack submit call that the stack accepted. -/
def obsIsAccepted : Obs → Bool
  | Obs.submitRead _ _ e => e == NRF_SUCCESS
  | Obs.submitWrite _ _ e => e == NRF_SUCCESS
  | _ => false

/-- Whether an observation is the ghost enqueue marker. -/
def obsIsEnq : Obs → Bool
  | Obs.enq => true
  | _ => false

/-- Number of submit-primitive calls in a log. -/
def countSubmits (l : List Obs) : Nat := (l.filter obsIsAttempt).length

/-- Number of accepted submit-primitive calls in a log. -/
def countAcc (l : List Obs) : Nat := (l.filter obsIsAccepted).length

/-- Number of enqueues in a log. -/
def countEnq (l : List Obs) : Nat := (l.filter obsIsEnq).length

/-- In-flight accounting over a log, starting from n accepted-but-not-yet
acknowledged requests: an accepted submit occupies the slot, a write-response
event frees it, a rejected submit leaves it as it was. -/
def obsFlight (n : Nat) : Obs → Nat
  | Obs.submitRead _ _ e => if e = NRF_SUCCESS then n + 1 else n
  | Obs.submitWrite _ _ e => if e = NRF_SUCCESS then n + 1 else n
  | Obs.rsp => n - 1
  | _ => n

/-- Scan of a log for a violation of the one-in-flight discipline: true when
some submit primitive is called while an earlier accepted submission has not
yet been freed by a write-response event. -/
def doubleSubmit (n : Nat) : List Obs → Bool
  | [] => false
  | o :: l => (obsIsAttempt o && !(n == 0)) || doubleSubmit (obsFlight n o) l

/-- The ghost in-flight count at the moment the step for event e would reach
its submit primitive: for a write-response event the response has already
freed the slot by then, for every other trigger it is the current count. -/
def preSubmitInFlight (s : MState) (e : Ev) : Nat :=
  match e with
  | Ev.evBle BleEvt.GATTC_WRITE_RSP _ => s.q.inFlight - 1
  | _ => s.q.inFlight

/-- Oracle assumption describing the real SoftDevice: along the trace, a
submit primitive call made while an accepted request is still unacknowledged
is never answered with NRF_SUCCESS (the stack is busy with the pending GATT
procedure and rejects). -/
def BusyRejecting : MState → List Ev → Prop
  | _, [] => True
  | s, e :: es =>
      (countSubmits (step s e).2 ≠ 0 → evErr e = NRF_SUCCESS →
        preSubmitInFlight s e = 0) ∧
      BusyRejecting (step s e).1 es

/-- A zero-filled write parameter block, the static initial content of a
buffer slot. -/
def zeroWriteParams : WriteParams :=
  { gattc_value := fun _ => 0
    gattc_params := { write_op := 0, handle := 0, offset := 0, len := 0 } }

/-- A zero-filled transmit message, the static initial content of a buffer
slot (static storage is zero-initialized in C; enum value 0 is READ_REQ). -/
def zeroMessage : TxMessage :=
  { conn_handle := 0, type := READ_REQ, read_handle := 0,
    write_req := zeroWriteParams }

/-- The initial queue state: zeroed buffer, both cursors 0, nothing in
flight. -/
def initQState : QState :=
  { tx_buffer := fun _ => zeroMessage, tx_insert_index := 0, tx_index := 0,
    inFlight := 0 }

/-- A concrete instance as it looks after connection and discovery: a valid
connection handle and discovered attribute handles. -/
def exUartConnected : UartC :=
  { conn_handle := 0x0005, RX_cccd_handle := 0x000D, RX_handle := 0x000C,
    TX_handle := 0x000F }

/-- A concrete instance with no active connection: the connection handle is
the invalid sentinel. -/
def exUartDisconnected : UartC :=
  { conn_handle := BLE_CONN_HANDLE_INVALID, RX_cccd_handle := 0x000D,
    RX_handle := 0x000C, TX_handle := 0x000F }

/-- Concrete full module state: connected instance over the empty queue. -/
def exConnState : MState := { uart := exUartConnected, q := initQState }

/-- Concrete queue state with one pending entry whose first submission the
stack rejected: the state after one ble_uart_c_write_string call answered
with a nonzero stack status. -/
def exQStatePending : QState :=
  (ble_uart_c_write_string exUartConnected [10, 11] 2 initQState 1).2.1

/-! Helper lemmas about the embedding. -/

/-- Masking with TX_BUFFER_MASK is reduction modulo TX_BUFFER_SIZE. -/
theorem land_mask_eq_mod (n : Nat) : n &&& TX_BUFFER_MASK = n % TX_BUFFER_SIZE := by
  have h := Nat.and_pow_two_sub_one_eq_mod n 3
  norm_num at h
  exact h

/-- Reading back the slot just written. -/
theorem bufGet_bufSet_self (b : Fin TX_BUFFER_SIZE → TxMessage) (i : Nat)
    (m : TxMessage) : bufGet (bufSet b i m) i = m := by
  simp [bufGet, bufSet]

/-- The observation of a submission is always a submit-primitive call. -/
theorem obsIsAttempt_submitObs (m : TxMessage) (e : Nat) :
    obsIsAttempt (submitObs m e) = true := by
  unfold submitObs
  split <;> rfl

/-- A submission observation is accepted exactly when the oracle status is
NRF_SUCCESS. -/
theorem obsIsAccepted_submitObs (m : TxMessage) (e : Nat) :
    obsIsAccepted (submitObs m e) = (e == NRF_SUCCESS) := by
  unfold submitObs
  split <;> rfl

/-- A submission observation is not the enqueue marker. -/
theorem obsIsEnq_submitObs (m : TxMessage) (e : Nat) :
    obsIsEnq (submitObs m e) = false := by
  unfold submitObs
  split <;> rfl

/-- The log of tx_buffer_process is exactly its submission attempt. -/
theorem tx_buffer_process_snd (q : QState) (e : Nat) :
    (tx_buffer_process q e).2 = submitAttempt q e := by
  unfold tx_buffer_process submitAttempt
  split <;> [skip; rfl]
  split <;> rfl

/-- A rejected tx_buffer_process call leaves the state untouched. -/
theorem tx_buffer_process_reject (q : QState) (e : Nat) (h : e ≠ NRF_SUCCESS) :
    (tx_buffer_process q e).1 = q := by
  unfold tx_buffer_process
  simp [h]
  split <;> rfl

/-- tx_buffer_process never writes the buffer and never moves the insert
cursor. -/
theorem tx_buffer_process_buffer (q : QState) (e : Nat) :
    (tx_buffer_process q e).1.tx_buffer = q.tx_buffer ∧
    (tx_buffer_process q e).1.tx_insert_index = q.tx_insert_index := by
  unfold tx_buffer_process
  split <;> [skip; exact ⟨rfl, rfl⟩]
  split <;> exact ⟨rfl, rfl⟩

/-- Dispatch-cursor effect of tx_buffer_process: the cursor advances by one
slot exactly on an accepted submission of a nonempty queue. -/
theorem tx_buffer_process_tx_index (q : QState) (e : Nat) :
    (tx_buffer_process q e).1.tx_index =
      (if q.tx_index ≠ q.tx_insert_index ∧ e = NRF_SUCCESS then
        (q.tx_index + 1) &&& TX_BUFFER_MASK
      else q.tx_index) := by
  unfold tx_buffer_process
  split <;> rename_i h1
  · split <;> rename_i h2 <;> simp [h1, h2]
  · simp [h1]

/-- Ghost in-flight effect of tx_buffer_process: the count rises by one
exactly on an accepted submission of a nonempty queue. -/
theorem tx_buffer_process_inFlight (q : QState) (e : Nat) :
    (tx_buffer_process q e).1.inFlight =
      q.inFlight +
        (if q.tx_index ≠ q.tx_insert_index ∧ e = NRF_SUCCESS then 1 else 0) := by
  unfold tx_buffer_process
  split <;> rename_i h1
  · split <;> rename_i h2 <;> simp [h1, h2]
  · simp [h1]

/-- A submission attempt contains no enqueue marker. -/
theorem countEnq_submitAttempt (q : QState) (e : Nat) :
    countEnq (submitAttempt q e) = 0 := by
  unfold submitAttempt
  split <;> simp [countEnq, List.filter, obsIsEnq_submitObs]

/-- A submission attempt is one submit call on a nonempty queue, none on an
empty one. -/
theorem countSubmits_submitAttempt (q : QState) (e : Nat) :
    countSubmits (submitAttempt q e) =
      if q.tx_index ≠ q.tx_insert_index then 1 else 0 := by
  unfold submitAttempt
  split <;> rename_i h <;>
    simp [h, countSubmits, List.filter, obsIsAttempt_submitObs]

/-- Accepted-submission count of a submission attempt. -/
theorem countAcc_submitAttempt (q : QState) (e : Nat) :
    countAcc (submitAttempt q e) =
      if q.tx_index ≠ q.tx_insert_index ∧ e = NRF_SUCCESS then 1 else 0 := by
  unfold submitAttempt
  split <;> rename_i h
  · by_cases he : e = NRF_SUCCESS
    · simp [h, he, countAcc, List.filter, obsIsAccepted_submitObs]
    · have hb : (e == NRF_SUCCESS) = false := beq_eq_false_iff_ne.mpr he
      simp [h, he, hb, countAcc, List.filter, obsIsAccepted_submitObs]
  · simp [h, countAcc]

/-- Projection form of tx_buffer_process_buffer for rewriting. -/
theorem tbp_insert (q : QState) (e : Nat) :
    (tx_buffer_process q e).1.tx_insert_index = q.tx_insert_index :=
  (tx_buffer_process_buffer q e).2

/-- Projection form of tx_buffer_process_buffer for rewriting. -/
theorem tbp_buf (q : QState) (e : Nat) :
    (tx_buffer_process q e).1.tx_buffer = q.tx_buffer :=
  (tx_buffer_process_buffer q e).1

/-- Head decomposition of the enqueue counter. -/
theorem countEnq_cons (o : Obs) (l : List Obs) :
    countEnq (o :: l) = countEnq l + (if obsIsEnq o then 1 else 0) := by
  by_cases h : obsIsEnq o <;> simp [countEnq, List.filter_cons, h]

/-- Head decomposition of the submit counter. -/
theorem countSubmits_cons (o : Obs) (l : List Obs) :
    countSubmits (o :: l) = countSubmits l + (if obsIsAttempt o then 1 else 0) := by
  by_cases h : obsIsAttempt o <;> simp [countSubmits, List.filter_cons, h]

/-- Head decomposition of the accepted-submit counter. -/
theorem countAcc_cons (o : Obs) (l : List Obs) :
    countAcc (o :: l) = countAcc l + (if obsIsAccepted o then 1 else 0) := by
  by_cases h : obsIsAccepted o <;> simp [countAcc, List.filter_cons, h]

/-- Insert-cursor evolution of one step: the cursor advances modulo the
buffer size by the number of enqueues the step logged, and stays below the
buffer size. -/
theorem step_insert_index (s : MState) (e : Ev)
    (h : s.q.tx_insert_index < TX_BUFFER_SIZE) :
    (step s e).1.q.tx_insert_index =
      (s.q.tx_insert_index + countEnq (step s e).2) % TX_BUFFER_SIZE ∧
    (step s e).1.q.tx_insert_index < TX_BUFFER_SIZE := by
  have hmod : ∀ n : Nat, n % TX_BUFFER_SIZE < TX_BUFFER_SIZE :=
    fun n => Nat.mod_lt _ (by decide)
  cases e with
  | evWriteString str len err =>
    by_cases hc : s.uart.conn_handle = BLE_CONN_HANDLE_INVALID
    · simp [step, ble_uart_c_write_string, hc, countEnq, Nat.mod_eq_of_lt h, h]
    · simp [step, ble_uart_c_write_string, hc, tbp_insert, tx_buffer_process_snd,
            countEnq_cons, countEnq_submitAttempt, obsIsEnq, land_mask_eq_mod,
            hmod]
  | evRxNotifEnable err =>
    simp [step, ble_uart_c_rx_notif_enable, cccd_configure, tbp_insert,
          tx_buffer_process_snd, countEnq_cons, countEnq_submitAttempt, obsIsEnq,
          land_mask_eq_mod, hmod]
  | evBle ev err =>
    cases ev with
    | GAP_CONNECTED hh =>
      simp [step, ble_uart_c_on_ble_evt, countEnq, Nat.mod_eq_of_lt h, h]
    | GATTC_HVX handle data len =>
      by_cases hR : handle = s.uart.RX_handle <;>
        simp [step, ble_uart_c_on_ble_evt, on_hvx, hR, countEnq, List.filter,
              Nat.mod_eq_of_lt h, h, obsIsEnq]
    | GATTC_WRITE_RSP =>
      simp [step, ble_uart_c_on_ble_evt, on_write_rsp, tbp_insert,
            tx_buffer_process_snd, countEnq_cons, countEnq_submitAttempt,
            obsIsEnq, Nat.mod_eq_of_lt h, h]
    | OTHER =>
      simp [step, ble_uart_c_on_ble_evt, countEnq, Nat.mod_eq_of_lt h, h]

/-- Numeric value of the buffer size, for the arithmetic decision
procedure. -/
theorem tx_buffer_size_eq : TX_BUFFER_SIZE = 8 := rfl

/-- Dispatch-cursor evolution of one step: the cursor advances modulo the
buffer size by the number of accepted submissions the step logged, and stays
below the buffer size. -/
theorem step_tx_index (s : MState) (e : Ev)
    (h : s.q.tx_index < TX_BUFFER_SIZE) :
    (step s e).1.q.tx_index =
      (s.q.tx_index + countAcc (step s e).2) % TX_BUFFER_SIZE ∧
    (step s e).1.q.tx_index < TX_BUFFER_SIZE := by
  have h8 : s.q.tx_index < 8 := h
  cases e with
  | evWriteString str len err =>
    by_cases hc : s.uart.conn_handle = BLE_CONN_HANDLE_INVALID
    · simp [step, ble_uart_c_write_string, hc, countAcc, Nat.mod_eq_of_lt h, h]
    · simp [step, ble_uart_c_write_string, hc, tx_buffer_process_tx_index,
            tx_buffer_process_snd, countAcc_cons, countAcc_submitAttempt,
            obsIsAccepted, land_mask_eq_mod, tx_buffer_size_eq]
      all_goals (split_ifs <;> omega)
  | evRxNotifEnable err =>
    simp [step, ble_uart_c_rx_notif_enable, cccd_configure,
          tx_buffer_process_tx_index, tx_buffer_process_snd, countAcc_cons,
          countAcc_submitAttempt, obsIsAccepted, land_mask_eq_mod,
          tx_buffer_size_eq]
    all_goals (split_ifs <;> omega)
  | evBle ev err =>
    cases ev with
    | GAP_CONNECTED hh =>
      simp [step, ble_uart_c_on_ble_evt, countAcc, Nat.mod_eq_of_lt h, h]
    | GATTC_HVX handle data len =>
      by_cases hR : handle = s.uart.RX_handle <;>
        simp [step, ble_uart_c_on_ble_evt, on_hvx, hR, countAcc, List.filter,
              Nat.mod_eq_of_lt h, h, obsIsAccepted]
    | GATTC_WRITE_RSP =>
      simp [step, ble_uart_c_on_ble_evt, on_write_rsp,
            tx_buffer_process_tx_index, tx_buffer_process_snd, countAcc_cons,
            countAcc_submitAttempt, obsIsAccepted, land_mask_eq_mod,
            tx_buffer_size_eq]
      all_goals (split_ifs <;> omega)
    | OTHER =>
      simp [step, ble_uart_c_on_ble_evt, countAcc, Nat.mod_eq_of_lt h, h]

/-- Ghost in-flight evolution of one step: starting from the count at the
moment the submit primitive would run, the count rises by one exactly when
the step logged a submission and the stack accepted it. -/
theorem step_inFlight (s : MState) (e : Ev) :
    (step s e).1.q.inFlight =
      preSubmitInFlight s e +
        (if countSubmits (step s e).2 ≠ 0 ∧ evErr e = NRF_SUCCESS then 1
         else 0) := by
  cases e with
  | evWriteString str len err =>
    by_cases hc : s.uart.conn_handle = BLE_CONN_HANDLE_INVALID
    · simp [step, ble_uart_c_write_string, hc, countSubmits, preSubmitInFlight,
            evErr]
    · simp [step, ble_uart_c_write_string, hc, tx_buffer_process_inFlight,
            tx_buffer_process_snd, countSubmits_cons, countSubmits_submitAttempt,
            obsIsAttempt, preSubmitInFlight, evErr, tx_buffer_size_eq]
  | evRxNotifEnable err =>
    simp [step, ble_uart_c_rx_notif_enable, cccd_configure,
          tx_buffer_process_inFlight, tx_buffer_process_snd, countSubmits_cons,
          countSubmits_submitAttempt, obsIsAttempt, preSubmitInFlight, evErr,
          tx_buffer_size_eq]
  | evBle ev err =>
    cases ev with
    | GAP_CONNECTED hh =>
      simp [step, ble_uart_c_on_ble_evt, countSubmits, preSubmitInFlight, evErr]
    | GATTC_HVX handle data len =>
      by_cases hR : handle = s.uart.RX_handle <;>
        simp [step, ble_uart_c_on_ble_evt, on_hvx, hR, countSubmits,
              List.filter, obsIsAttempt, preSubmitInFlight, evErr]
    | GATTC_WRITE_RSP =>
      simp [step, ble_uart_c_on_ble_evt, on_write_rsp,
            tx_buffer_process_inFlight, tx_buffer_process_snd, countSubmits_cons,
            countSubmits_submitAttempt, obsIsAttempt, preSubmitInFlight, evErr]
    | OTHER =>
      simp [step, ble_uart_c_on_ble_evt, countSubmits, preSubmitInFlight, evErr]

/-- The count at submit time never exceeds the count before the step. -/
theorem preSubmitInFlight_le (s : MState) (e : Ev) :
    preSubmitInFlight s e ≤ s.q.inFlight := by
  cases e with
  | evWriteString str len err => exact Nat.le_refl _
  | evRxNotifEnable err => exact Nat.le_refl _
  | evBle ev err => cases ev <;> simp [preSubmitInFlight]

/-- The enqueue counter distributes over log concatenation. -/
theorem countEnq_append (a b : List Obs) :
    countEnq (a ++ b) = countEnq a + countEnq b := by
  simp [countEnq, List.filter_append]

/-- The accepted-submit counter distributes over log concatenation. -/
theorem countAcc_append (a b : List Obs) :
    countAcc (a ++ b) = countAcc a + countAcc b := by
  simp [countAcc, List.filter_append]

/-- The submit counter distributes over log concatenation. -/
theorem countSubmits_append (a b : List Obs) :
    countSubmits (a ++ b) = countSubmits a + countSubmits b := by
  simp [countSubmits, List.filter_append]

/-- Cursor accounting over a whole run: starting below the buffer size, the
insert cursor ends at its start plus the number of logged enqueues, modulo
the buffer size, and the dispatch cursor ends at its start plus the number of
logged accepted submissions, modulo the buffer size. -/
theorem run_counters (evs : List Ev) : ∀ s : MState,
    s.q.tx_insert_index < TX_BUFFER_SIZE → s.q.tx_index < TX_BUFFER_SIZE →
    (run s evs).q.tx_insert_index =
      (s.q.tx_insert_index + countEnq (runLog s evs)) % TX_BUFFER_SIZE ∧
    (run s evs).q.tx_index =
      (s.q.tx_index + countAcc (runLog s evs)) % TX_BUFFER_SIZE := by
  induction evs with
  | nil =>
    intro s h1 h2
    simp [run, runLog, countEnq, countAcc, Nat.mod_eq_of_lt h1,
          Nat.mod_eq_of_lt h2]
  | cons e es ih =>
    intro s h1 h2
    obtain ⟨hi1, hi2⟩ := step_insert_index s e h1
    obtain ⟨ht1, ht2⟩ := step_tx_index s e h2
    obtain ⟨ih1, ih2⟩ := ih (step s e).1 hi2 ht2
    rw [show run s (e :: es) = run (step s e).1 es from rfl,
        show runLog s (e :: es) = (step s e).2 ++ runLog (step s e).1 es from rfl,
        countEnq_append, countAcc_append]
    simp only [tx_buffer_size_eq] at hi1 ht1 ih1 ih2 ⊢
    constructor
    · rw [ih1, hi1]; omega
    · rw [ih2, ht1]; omega

/-- Under the busy-rejecting stack assumption, a run keeps the ghost
in-flight count at or below one. -/
theorem run_inFlight_le_one (evs : List Ev) : ∀ s : MState,
    s.q.inFlight ≤ 1 → BusyRejecting s evs → (run s evs).q.inFlight ≤ 1 := by
  induction evs with
  | nil =>
    intro s h _
    simpa [run] using h
  | cons e es ih =>
    intro s h hb
    obtain ⟨hb1, hb2⟩ := hb
    have hf := step_inFlight s e
    have hple := preSubmitInFlight_le s e
    refine ih (step s e).1 ?_ hb2
    by_cases hcs : countSubmits (step s e).2 ≠ 0 ∧ evErr e = NRF_SUCCESS
    · have hp0 := hb1 hcs.1 hcs.2
      rw [hf, hp0]
      simp [hcs]
    · rw [hf]
      simp only [if_neg hcs]
      omega

/-- Any single trigger logs at most one call of a submit primitive. -/
theorem step_submits_le_one (s : MState) (e : Ev) :
    countSubmits (step s e).2 ≤ 1 := by
  cases e with
  | evWriteString str len err =>
    by_cases hc : s.uart.conn_handle = BLE_CONN_HANDLE_INVALID
    · simp [step, ble_uart_c_write_string, hc, countSubmits]
    · simp [step, ble_uart_c_write_string, hc, tx_buffer_process_snd,
            countSubmits_cons, countSubmits_submitAttempt, obsIsAttempt]
      split_ifs <;> omega
  | evRxNotifEnable err =>
    simp [step, ble_uart_c_rx_notif_enable, cccd_configure,
          tx_buffer_process_snd, countSubmits_cons, countSubmits_submitAttempt,
          obsIsAttempt]
    split_ifs <;> omega
  | evBle ev err =>
    cases ev with
    | GAP_CONNECTED hh => simp [step, ble_uart_c_on_ble_evt, countSubmits]
    | GATTC_HVX handle data len =>
      by_cases hR : handle = s.uart.RX_handle <;>
        simp [step, ble_uart_c_on_ble_evt, on_hvx, hR, countSubmits,
              List.filter, obsIsAttempt]
    | GATTC_WRITE_RSP =>
      simp [step, ble_uart_c_on_ble_evt, on_write_rsp, tx_buffer_process_snd,
            countSubmits_cons, countSubmits_submitAttempt, obsIsAttempt]
      split_ifs <;> omega
    | OTHER => simp [step, ble_uart_c_on_ble_evt, countSubmits]

/-! Claim theorems. -/

/-- Claim C4: every call of ble_uart_c_write_string while conn_handle is the
invalid sentinel returns NRF_ERROR_INVALID_STATE and leaves the queue state
(buffer contents, insert cursor, dispatch cursor) completely unchanged,
logging no interaction. -/
theorem writeString_disconnected_rejects (u : UartC) (p_str : List Nat)
    (p_str_len : Nat) (q : QState) (stackErr : Nat)
    (h : u.conn_handle = BLE_CONN_HANDLE_INVALID) :
    ble_uart_c_write_string u p_str p_str_len q stackErr =
      (NRF_ERROR_INVALID_STATE, q, []) := by
  simp [ble_uart_c_write_string, h]

/-- Witness for claim C4 at a concrete disconnected instance. -/
theorem writeString_disconnected_rejects_witness :
    ble_uart_c_write_string exUartDisconnected [1, 2] 2 initQState 0 =
      (NRF_ERROR_INVALID_STATE, initQState, []) :=
  writeString_disconnected_rejects exUartDisconnected [1, 2] 2 initQState 0 rfl

/-- Claim C2: enqueueing performs no capacity check.  With an active
connection, ble_uart_c_write_string always writes the new message into the
slot at the insert cursor and advances the cursor with the wrap-around mask,
and returns NRF_SUCCESS; in particular, when the cursors coincide because
eight entries are outstanding, the slot at the dispatch cursor (the oldest
unconsumed entry) is overwritten.  cccd_configure likewise advances the
cursor and returns NRF_SUCCESS unconditionally. -/
theorem enqueue_no_capacity_check (u : UartC) (p_str : List Nat)
    (p_str_len : Nat) (q : QState) (stackErr : Nat) (ch hc : Nat) (en : Bool)
    (h : u.conn_handle ≠ BLE_CONN_HANDLE_INVALID) :
    (ble_uart_c_write_string u p_str p_str_len q stackErr).1 = NRF_SUCCESS ∧
    (ble_uart_c_write_string u p_str p_str_len q stackErr).2.1.tx_insert_index =
      (q.tx_insert_index + 1) &&& TX_BUFFER_MASK ∧
    bufGet (ble_uart_c_write_string u p_str p_str_len q stackErr).2.1.tx_buffer
        q.tx_insert_index =
      { conn_handle := u.conn_handle
        type := WRITE_REQ
        read_handle := (bufGet q.tx_buffer q.tx_insert_index).read_handle
        write_req :=
          { gattc_value :=
              memcpy20 (bufGet q.tx_buffer q.tx_insert_index).write_req.gattc_value
                p_str p_str_len
            gattc_params :=
              { write_op := BLE_GATT_OP_WRITE_REQ
                handle := u.TX_handle
                offset := 0
                len := p_str_len } } } ∧
    (q.tx_insert_index = q.tx_index →
      bufGet (ble_uart_c_write_string u p_str p_str_len q stackErr).2.1.tx_buffer
          q.tx_index =
        { conn_handle := u.conn_handle
          type := WRITE_REQ
          read_handle := (bufGet q.tx_buffer q.tx_insert_index).read_handle
          write_req :=
            { gattc_value :=
                memcpy20 (bufGet q.tx_buffer q.tx_insert_index).write_req.gattc_value
                  p_str p_str_len
              gattc_params :=
                { write_op := BLE_GATT_OP_WRITE_REQ
                  handle := u.TX_handle
                  offset := 0
                  len := p_str_len } } }) ∧
    (cccd_configure q ch hc en stackErr).1 = NRF_SUCCESS ∧
    (cccd_configure q ch hc en stackErr).2.1.tx_insert_index =
      (q.tx_insert_index + 1) &&& TX_BUFFER_MASK := by
  refine ⟨?_, ?_, ?_, ?_, ?_, ?_⟩
  · simp [ble_uart_c_write_string, h]
  · simp [ble_uart_c_write_string, h, tbp_insert]
  · simp [ble_uart_c_write_string, h, tbp_buf, bufGet_bufSet_self]
  · intro he
    rw [← he]
    simp [ble_uart_c_write_string, h, tbp_buf, bufGet_bufSet_self]
  · simp [cccd_configure]
  · simp [cccd_configure, tbp_insert]

/-- Witness for claim C2: the first enqueue on the empty queue (where both
cursors coincide) succeeds. -/
theorem enqueue_no_capacity_check_witness :
    (ble_uart_c_write_string exUartConnected [7] 1 initQState 1).1 =
      NRF_SUCCESS :=
  (enqueue_no_capacity_check exUartConnected [7] 1 initQState 1 0 0 true
    (by decide)).1

/-- Claim C9: ble_uart_c_write_string never validates p_str_len against the
20-byte slot: with an active connection it succeeds for every length, stores
p_str_len verbatim as the write length, and the byte offsets the C memcpy
writes all lie inside the 20-byte slot exactly when p_str_len is at most
WRITE_MESSAGE_LENGTH. -/
theorem writeString_no_length_validation (u : UartC) (p_str : List Nat)
    (p_str_len : Nat) (q : QState) (stackErr : Nat)
    (h : u.conn_handle ≠ BLE_CONN_HANDLE_INVALID) :
    (ble_uart_c_write_string u p_str p_str_len q stackErr).1 = NRF_SUCCESS ∧
    (bufGet (ble_uart_c_write_string u p_str p_str_len q stackErr).2.1.tx_buffer
        q.tx_insert_index).write_req.gattc_params.len = p_str_len ∧
    ((∀ i ∈ memcpyDstIndices p_str_len, i < WRITE_MESSAGE_LENGTH) ↔
      p_str_len ≤ WRITE_MESSAGE_LENGTH) := by
  refine ⟨?_, ?_, ?_⟩
  · simp [ble_uart_c_write_string, h]
  · simp [ble_uart_c_write_string, h, tbp_buf, bufGet_bufSet_self]
  · simp only [memcpyDstIndices, List.mem_range]
    constructor
    · intro hall
      by_contra hgt
      push_neg at hgt
      have h20 := hall WRITE_MESSAGE_LENGTH (by omega)
      omega
    · intro hle i hi
      omega

/-- Witness for claim C9, with a length exceeding the slot capacity. -/
theorem writeString_no_length_validation_witness :
    (ble_uart_c_write_string exUartConnected (List.replicate 50 0xAA) 50
      initQState 1).1 = NRF_SUCCESS :=
  (writeString_no_length_validation exUartConnected (List.replicate 50 0xAA) 50
    initQState 1 (by decide)).1

/-- Claim C10: ble_uart_c_write_string dereferences its context pointer with
no NULL check, so a NULL argument has no defined result, while
ble_uart_c_init and ble_uart_c_rx_notif_enable reject NULL arguments with
NRF_ERROR_NULL and ble_uart_c_on_ble_evt ignores them; with any non-null
context ble_uart_c_write_string has a defined result. -/
theorem writeString_null_discipline (p_str : List Nat) (p_str_len : Nat)
    (q : QState) (stackErr vs_add_err register_err : Nat) (u : UartC)
    (ev : BleEvt) (pbi : Option Unit) :
    writeStringPtr none p_str p_str_len q stackErr = none ∧
    (writeStringPtr (some u) p_str p_str_len q stackErr).isSome = true ∧
    ble_uart_c_init none pbi vs_add_err register_err = (NRF_ERROR_NULL, none) ∧
    (ble_uart_c_init (some u) none vs_add_err register_err).1 =
      NRF_ERROR_NULL ∧
    ble_uart_c_on_ble_evt none (some ev) q stackErr = (none, q, []) ∧
    ble_uart_c_on_ble_evt (some u) none q stackErr = (some u, q, []) ∧
    ble_uart_c_rx_notif_enable none q stackErr = (NRF_ERROR_NULL, q, []) :=
  ⟨rfl, rfl, rfl, rfl, rfl, rfl, rfl⟩

/-- Claim C7: a handle-value notification reaches the application callback
if and only if the notifying handle equals the stored RX handle, carrying
the first hvx_len payload bytes and the length; on a mismatch there is no
callback, and in either case the dispatcher leaves the instance and the
queue state unchanged. -/
theorem hvx_callback_filtering (u : UartC) (handle : Nat) (data : List Nat)
    (len : Nat) (q : QState) (stackErr : Nat) :
    on_hvx u handle data len =
      (if handle = u.RX_handle then
        [Obs.appEvt
          { evt_type := UartCEvtType.BLE_UART_C_EVT_RX_DATA_NOTIFICATION
            rx_data := data.take len
            len := len }]
      else []) ∧
    ble_uart_c_on_ble_evt (some u) (some (BleEvt.GATTC_HVX handle data len)) q
        stackErr =
      (some u, q, on_hvx u handle data len) :=
  ⟨rfl, rfl⟩

/-- Claim C8: enabling notifications through ble_uart_c_rx_notif_enable
enqueues a write request addressed to the stored CCCD handle with length 2,
offset 0, the write-with-response operation code, payload bytes 0x01 then
0x00, and the stored connection handle, and reports NRF_SUCCESS. -/
theorem notif_enable_builds_cccd_write (u : UartC) (q : QState)
    (stackErr : Nat) :
    (ble_uart_c_rx_notif_enable (some u) q stackErr).1 = NRF_SUCCESS ∧
    (bufGet (ble_uart_c_rx_notif_enable (some u) q stackErr).2.1.tx_buffer
        q.tx_insert_index).type = WRITE_REQ ∧
    (bufGet (ble_uart_c_rx_notif_enable (some u) q stackErr).2.1.tx_buffer
        q.tx_insert_index).conn_handle = u.conn_handle ∧
    (bufGet (ble_uart_c_rx_notif_enable (some u) q stackErr).2.1.tx_buffer
        q.tx_insert_index).write_req.gattc_params.handle = u.RX_cccd_handle ∧
    (bufGet (ble_uart_c_rx_notif_enable (some u) q stackErr).2.1.tx_buffer
        q.tx_insert_index).write_req.gattc_params.len = 2 ∧
    (bufGet (ble_uart_c_rx_notif_enable (some u) q stackErr).2.1.tx_buffer
        q.tx_insert_index).write_req.gattc_params.offset = 0 ∧
    (bufGet (ble_uart_c_rx_notif_enable (some u) q stackErr).2.1.tx_buffer
        q.tx_insert_index).write_req.gattc_params.write_op =
      BLE_GATT_OP_WRITE_REQ ∧
    (bufGet (ble_uart_c_rx_notif_enable (some u) q stackErr).2.1.tx_buffer
        q.tx_insert_index).write_req.gattc_value 0 = 0x01 ∧
    (bufGet (ble_uart_c_rx_notif_enable (some u) q stackErr).2.1.tx_buffer
        q.tx_insert_index).write_req.gattc_value 1 = 0x00 := by
  refine ⟨rfl, ?_, ?_, ?_, ?_, ?_, ?_, ?_, ?_⟩ <;>
    simp [ble_uart_c_rx_notif_enable, cccd_configure, tbp_buf,
          bufGet_bufSet_self, Function.update_apply, LSB_16, MSB_16,
          BLE_GATT_HVX_NOTIFICATION]

/-- Counterexample to claim C3 as stated: with a non-null instance whose
connection handle is the invalid sentinel, ble_uart_c_rx_notif_enable does
not return an invalid-state error and does enqueue — it returns NRF_SUCCESS
and advances the insert cursor. -/
theorem rx_notif_enable_disconnected_counterexample :
    (ble_uart_c_rx_notif_enable (some exUartDisconnected) initQState 1).1 =
      NRF_SUCCESS ∧
    (ble_uart_c_rx_notif_enable (some exUartDisconnected) initQState 1).1 ≠
      NRF_ERROR_INVALID_STATE ∧
    (ble_uart_c_rx_notif_enable (some exUartDisconnected)
        initQState 1).2.1.tx_insert_index = 1 := by
  decide

/-- Claim C3 (amended): ble_uart_c_rx_notif_enable checks only for a NULL
instance pointer, answered with NRF_ERROR_NULL; with a non-null instance it
performs no connection-state check, so even when no connection is
established it enqueues the CCCD write (carrying whatever connection handle
is stored, including the invalid sentinel) and returns NRF_SUCCESS. -/
theorem rx_notif_enable_no_state_check (u : UartC) (q : QState)
    (stackErr : Nat) :
    (ble_uart_c_rx_notif_enable (some u) q stackErr).1 = NRF_SUCCESS ∧
    (ble_uart_c_rx_notif_enable (some u) q stackErr).2.1.tx_insert_index =
      (q.tx_insert_index + 1) &&& TX_BUFFER_MASK ∧
    (bufGet (ble_uart_c_rx_notif_enable (some u) q stackErr).2.1.tx_buffer
        q.tx_insert_index).conn_handle = u.conn_handle ∧
    ble_uart_c_rx_notif_enable none q stackErr = (NRF_ERROR_NULL, q, []) := by
  refine ⟨rfl, ?_, ?_, rfl⟩
  · simp [ble_uart_c_rx_notif_enable, cccd_configure, tbp_insert]
  · simp [ble_uart_c_rx_notif_enable, cccd_configure, tbp_buf,
          bufGet_bufSet_self]

/-- Claim C5: a submission the stack rejects leaves the whole queue state —
in particular the dispatch cursor — unchanged, the attempt made is exactly
the pending entry at the dispatch cursor, and the next trigger resubmits
exactly the same entry (same connection handle, same attribute handle, same
payload). -/
theorem rejected_submission_retried (q : QState) (stackErr : Nat)
    (h : stackErr ≠ NRF_SUCCESS) :
    (tx_buffer_process q stackErr).1 = q ∧
    (tx_buffer_process q stackErr).2 = submitAttempt q stackErr ∧
    ∀ e2 : Nat, (tx_buffer_process (tx_buffer_process q stackErr).1 e2).2 =
      submitAttempt q e2 := by
  refine ⟨tx_buffer_process_reject q stackErr h,
          tx_buffer_process_snd q stackErr, ?_⟩
  intro e2
  rw [tx_buffer_process_reject q stackErr h, tx_buffer_process_snd]

/-- Witness for claim C5 on a concrete queue with one pending entry. -/
theorem rejected_submission_retried_witness :
    (tx_buffer_process exQStatePending 1).1 = exQStatePending :=
  (rejected_submission_retried exQStatePending 1 (by decide)).1

/-- Claim C6: from an empty queue (cursors equal and in range), every run
whose log contains N enqueues and N accepted submissions, with N at most the
buffer capacity, ends with the queue empty again: the insert cursor equals
the dispatch cursor. -/
theorem n_enqueues_n_accepts_drain (N : Nat) (s : MState) (evs : List Ev)
    (hN : N ≤ TX_BUFFER_SIZE)
    (hstart : s.q.tx_insert_index = s.q.tx_index)
    (hlt : s.q.tx_insert_index < TX_BUFFER_SIZE)
    (henq : countEnq (runLog s evs) = N)
    (hacc : countAcc (runLog s evs) = N) :
    (run s evs).q.tx_insert_index = (run s evs).q.tx_index := by
  have h2 : s.q.tx_index < TX_BUFFER_SIZE := hstart ▸ hlt
  obtain ⟨e1, e2⟩ := run_counters evs s hlt h2
  rw [e1, e2, henq, hacc, hstart]

/-- Witness for claim C6: two enqueues whose immediate submissions the stack
accepts drain back to the empty queue. -/
theorem n_enqueues_n_accepts_drain_witness :
    (run exConnState
      [Ev.evWriteString [1] 1 0, Ev.evWriteString [2] 1 0]).q.tx_insert_index =
    (run exConnState
      [Ev.evWriteString [1] 1 0, Ev.evWriteString [2] 1 0]).q.tx_index :=
  n_enqueues_n_accepts_drain 2 exConnState
    [Ev.evWriteString [1] 1 0, Ev.evWriteString [2] 1 0]
    (by decide) rfl (by decide) (by decide) (by decide)

/-- Counterexample to claim C1 as stated: in the trace that enqueues one
string (submission accepted by the stack) and then enqueues a second string
before any write-response event, the second enqueue passes a second request
to the submit primitive while the accepted first request is still
unacknowledged — even though the stack rejects that second call. -/
theorem double_submission_counterexample :
    doubleSubmit 0 (runLog exConnState
      [Ev.evWriteString [0x41] 1 0, Ev.evWriteString [0x42] 1 1]) = true := by
  decide

/-- Claim C1 (amended): each trigger passes at most one request to the
submit primitives, and provided the stack rejects every submission made
while an accepted request is still unacknowledged (the busy-rejecting
behaviour of the real stack, which this module relies on instead of
suppressing its own attempts), the number of accepted-but-unacknowledged
requests never exceeds one. -/
theorem single_inflight_under_busy_rejection :
    (∀ (s : MState) (e : Ev), countSubmits (step s e).2 ≤ 1) ∧
    (∀ (evs : List Ev) (s : MState), s.q.inFlight ≤ 1 →
      BusyRejecting s evs → (run s evs).q.inFlight ≤ 1) :=
  ⟨step_submits_le_one, run_inFlight_le_one⟩

/-- Witness for the amended claim C1 on a concrete busy-rejecting trace. -/
theorem single_inflight_under_busy_rejection_witness :
    (run exConnState [Ev.evWriteString [3] 1 0]).q.inFlight ≤ 1 :=
  single_inflight_under_busy_rejection.2 [Ev.evWriteString [3] 1 0]
    exConnState (by decide) ⟨fun _ _ => rfl, trivial⟩

end BleUartC
